import Mathlib

/-!
Verification development for the stock-data caching and incremental-range
reconciliation engine.  The definitions below are shallow embeddings of the
Python sources:

  * src/core/cache_engine.py   (fingerprinting, cache store, statistics)
  * src/core/tushare_proxy.py  (dtype coercion, unified query, smart
                                incremental range reconciliation)
  * src/utils/config.py        (per-operation API configuration lookup)

Modelling conventions:

  * Trade dates (YYYYMMDD strings in the source) are modelled as natural
    numbers (day indices); strptime and strftime are the identity under this
    encoding, and the one-day arithmetic of the reconciler becomes plus or
    minus one.
  * Machine time (file modification time, datetime.now) is modelled in whole
    days as a natural number, matching the granularity at which the source
    compares ages against the per-operation expiry window.
  * The on-disk cache is an association list from (api_name, parameters) to
    (modification time, stored fragment); the MD5 fingerprint of the source
    is a deterministic function of (api_name, canonically serialized
    parameters), so keying the store directly by that pair is faithful.
  * Pandas DataFrames are modelled as a header (list of column names) plus a
    list of rows of raw string cells at the cache-engine level, and as lists
    of typed rows (ts_code, trade_date, payload) at the reconciler level.
-/

/-! ## Fingerprinting (src/core/cache_engine.py, _hash_param)

The source computes md5(f"{api_name}_{json.dumps(params, sort_keys=True)}").
Parameter values in this code base are either strings or None, so a
parameter set is a list of (key, optional string) pairs in insertion order.
The digest itself is an arbitrary deterministic function of the serialized
string, taken as a parameter of the embedding.
-/

/-- A parameter mapping in insertion order: keys to string-or-null values. -/
abbrev Params := List (String × Option String)

/-- Key ordering used by json.dumps with sort_keys=True: lexicographic
string comparison of the keys. -/
def keyLe (a b : String × Option String) : Prop := a.1 ≤ b.1

instance : DecidableRel keyLe := fun a b => inferInstanceAs (Decidable (a.1 ≤ b.1))

/-- Insert a pair into a key-sorted list, keeping it key-sorted. -/
def insertByKey (p : String × Option String) : Params → Params
  | [] => [p]
  | q :: qs => if p.1 ≤ q.1 then p :: q :: qs else q :: insertByKey p qs

/-- Sort a parameter list by key (the sorted serialization order of
json.dumps with sort_keys=True). -/
def sortParams : Params → Params
  | [] => []
  | p :: ps => insertByKey p (sortParams ps)

/-- JSON rendering of a parameter value: null for None, a quoted string
otherwise (values in this code base need no JSON escaping). -/
def jsonValue : Option String → String
  | none => "null"
  | some s => "\"" ++ s ++ "\""

/-- JSON rendering of one key/value pair. -/
def jsonPair (p : String × Option String) : String :=
  "\"" ++ p.1 ++ "\": " ++ jsonValue p.2

/-- The canonical serialization json.dumps(params, sort_keys=True). -/
def jsonDumpsSorted (ps : Params) : String :=
  "\x7b" ++ String.intercalate ", " ((sortParams ps).map jsonPair) ++ "\x7d"

/-- The fingerprint of _hash_param: a deterministic digest (md5 hexdigest in
the source) of the api name concatenated with the canonical serialization. -/
def hashParam (digest : String → String) (api_name : String) (ps : Params) : String :=
  digest (api_name ++ "_" ++ jsonDumpsSorted ps)

theorem insertByKey_perm (p : String × Option String) (l : Params) :
    List.Perm (insertByKey p l) (p :: l) := by
  induction l with
  | nil => simp [insertByKey]
  | cons q qs ih =>
    simp only [insertByKey]
    by_cases h : p.1 ≤ q.1
    · simp [h]
    · simp only [h, if_false]
      exact (ih.cons q).trans (List.Perm.swap p q qs)

theorem sortParams_perm (l : Params) : List.Perm (sortParams l) l := by
  induction l with
  | nil => simp [sortParams]
  | cons p ps ih =>
    exact (insertByKey_perm p (sortParams ps)).trans (ih.cons p)

theorem insertByKey_pairwise (p : String × Option String) (l : Params)
    (h : l.Pairwise keyLe) : (insertByKey p l).Pairwise keyLe := by
  induction l with
  | nil => simp [insertByKey, keyLe]
  | cons q qs ih =>
    simp only [insertByKey]
    by_cases hle : p.1 ≤ q.1
    · simp only [hle, if_true]
      refine List.Pairwise.cons ?_ h
      intro b hb
      rcases List.mem_cons.mp hb with hb1 | hb1
      · subst hb1; exact hle
      · exact le_trans hle ((List.pairwise_cons.mp h).1 b hb1)
    · simp only [hle, if_false]
      rcases List.pairwise_cons.mp h with ⟨hq, hqs⟩
      refine List.Pairwise.cons ?_ (ih hqs)
      intro b hb
      have hmem : b ∈ p :: qs := (insertByKey_perm p qs).mem_iff.mp hb
      rcases List.mem_cons.mp hmem with hb1 | hb1
      · subst hb1; exact le_of_not_le hle
      · exact hq b hb1

theorem sortParams_pairwise (l : Params) : (sortParams l).Pairwise keyLe := by
  induction l with
  | nil => simp [sortParams]
  | cons p ps ih => exact insertByKey_pairwise p (sortParams ps) ih

theorem eq_of_perm_sorted_nodupKeys :
    ∀ (l1 l2 : Params), List.Perm l1 l2 → l1.Pairwise keyLe → l2.Pairwise keyLe →
      (l1.map Prod.fst).Nodup → l1 = l2 := by
  intro l1
  induction l1 with
  | nil =>
    intro l2 hp _ _ _
    exact hp.nil_eq
  | cons a t1 ih =>
    intro l2 hp h1 h2 hn
    have hn2 : a.1 ∉ t1.map Prod.fst ∧ (t1.map Prod.fst).Nodup := by
      rw [List.map_cons] at hn
      exact List.nodup_cons.mp hn
    cases l2 with
    | nil => exact absurd hp.eq_nil (by simp)
    | cons b t2 =>
      have hab : a = b := by
        have hbmem : b ∈ a :: t1 := hp.symm.subset (List.mem_cons_self b t2)
        rcases List.mem_cons.mp hbmem with hb | hb
        · exact hb.symm
        · have hle1 : a.1 ≤ b.1 := (List.pairwise_cons.mp h1).1 b hb
          have hamem : a ∈ b :: t2 := hp.subset (List.mem_cons_self a t1)
          rcases List.mem_cons.mp hamem with ha | ha
          · exact ha
          · have hle2 : b.1 ≤ a.1 := (List.pairwise_cons.mp h2).1 a ha
            have hkey : a.1 = b.1 := le_antisymm hle1 hle2
            exact absurd (hkey ▸ List.mem_map_of_mem Prod.fst hb) hn2.1
      subst hab
      have htail : List.Perm t1 t2 := hp.cons_inv
      have heq := ih t2 htail (List.pairwise_cons.mp h1).2 (List.pairwise_cons.mp h2).2
        hn2.2
      rw [heq]

theorem sortParams_perm_eq (l1 l2 : Params) (hperm : List.Perm l1 l2)
    (hn : (l1.map Prod.fst).Nodup) : sortParams l1 = sortParams l2 := by
  refine eq_of_perm_sorted_nodupKeys (sortParams l1) (sortParams l2)
    ?_ (sortParams_pairwise l1) (sortParams_pairwise l2) ?_
  · exact (sortParams_perm l1).trans (hperm.trans (sortParams_perm l2).symm)
  · exact (((sortParams_perm l1).map Prod.fst).nodup_iff).mpr hn

/-! ## Per-operation API configuration (src/utils/config.py, APIProfile) -/

/-- Cache policy of one operation: expiry window in days and whether the
incremental reconciler applies.  Defaults mirror APIConfig (expire_days=5,
incremental_update=False). -/
structure APIConfig where
  expire_days : Nat := 5
  incremental_update : Bool := false
deriving DecidableEq

/-- The configured profile: a default policy plus one optional override per
known field.  Field names are exactly those of the Python APIProfile class;
note the field is spelled stk_limits, with a trailing s. -/
structure APIProfile where
  dfault : APIConfig := {}
  daily : Option APIConfig := none
  trade_cal : Option APIConfig := none
  stock_basic : Option APIConfig := none
  listed_shares : Option APIConfig := none
  stk_limits : Option APIConfig := none
  limit_list_ths : Option APIConfig := none
  limit_list_d : Option APIConfig := none
deriving DecidableEq

/-- The attribute names getattr can observe on an APIProfile value (the
data fields of the pydantic model). -/
def profileFieldNames : List String :=
  ["default", "daily", "trade_cal", "stock_basic", "listed_shares",
   "stk_limits", "limit_list_ths", "limit_list_d"]

/-- Embedding of getattr(self, api_name, None) on APIProfile: a name that is
not a data field of the model yields None. -/
def getattrOpt (p : APIProfile) (name : String) : Option APIConfig :=
  match name with
  | "default" => some p.dfault
  | "daily" => p.daily
  | "trade_cal" => p.trade_cal
  | "stock_basic" => p.stock_basic
  | "listed_shares" => p.listed_shares
  | "stk_limits" => p.stk_limits
  | "limit_list_ths" => p.limit_list_ths
  | "limit_list_d" => p.limit_list_d
  | _ => none

/-- APIProfile.get_config: the attribute looked up dynamically, falling back
to the default configuration when absent or None. -/
def APIProfile.get_config (p : APIProfile) (api_name : String) : APIConfig :=
  (getattrOpt p api_name).getD p.dfault

/-- C4: for every operation name and every two parameter mappings with
identical key/value pairs in different insertion order, the fingerprint is
the same, because keys are serialized in sorted order before hashing. -/
theorem hashParam_insertion_order_independent
    (digest : String → String) (api_name : String) (P1 P2 : Params)
    (hperm : List.Perm P1 P2) (hkeys : (P1.map Prod.fst).Nodup) :
    hashParam digest api_name P1 = hashParam digest api_name P2 := by
  unfold hashParam jsonDumpsSorted
  rw [sortParams_perm_eq P1 P2 hperm hkeys]

/-- Witness for C4 at a concrete pair of reordered parameter mappings. -/
theorem hashParam_insertion_order_independent_witness :
    List.Perm
      [("ts_code", some "000001.SZ"), ("start_date", some "20200101"),
       ("end_date", none)]
      [("end_date", none), ("start_date", some "20200101"),
       ("ts_code", some "000001.SZ")] ∧
    (([("ts_code", some "000001.SZ"), ("start_date", some "20200101"),
       ("end_date", (none : Option String))].map Prod.fst).Nodup) ∧
    hashParam id "daily"
      [("ts_code", some "000001.SZ"), ("start_date", some "20200101"),
       ("end_date", none)] =
    hashParam id "daily"
      [("end_date", none), ("start_date", some "20200101"),
       ("ts_code", some "000001.SZ")] :=
  ⟨by decide, by decide,
   hashParam_insertion_order_independent id "daily" _ _ (by decide) (by decide)⟩

/-- C10: an operation name that is not a data field of APIProfile receives
the default configuration from get_config, without any error; in particular
the name stk_limit (the field is spelled stk_limits) always maps to the
default policy. -/
theorem get_config_unknown_name_default (p : APIProfile) (name : String)
    (h : name ∉ profileFieldNames) :
    p.get_config name = p.dfault ∧ p.get_config "stk_limit" = p.dfault := by
  constructor
  · have hge : getattrOpt p name = none := by
      unfold getattrOpt
      split
      all_goals first
        | rfl
        | (exfalso; apply h; simp_all [profileFieldNames])
    simp [APIProfile.get_config, hge]
  · rfl

/-- Witness for C10: a profile that configures the stk_limits field still
hands the default policy to the operation queried under the name stk_limit. -/
theorem get_config_unknown_name_default_witness :
    ("stk_limit" ∉ profileFieldNames) ∧
    (({ stk_limits := some ⟨7, true⟩ } : APIProfile).get_config "stk_limit" =
        ({ stk_limits := some ⟨7, true⟩ } : APIProfile).dfault ∧
     ({ stk_limits := some ⟨7, true⟩ } : APIProfile).get_config "stk_limit" =
        ({ stk_limits := some ⟨7, true⟩ } : APIProfile).dfault) :=
  ⟨by decide,
   get_config_unknown_name_default { stk_limits := some ⟨7, true⟩ } "stk_limit"
     (by decide)⟩

/-! ## Cache Store (src/core/cache_engine.py, TushareCacheEngine)

A stored file is a CSV: a header of column names plus rows of raw string
cells.  pandas read_csv raises EmptyDataError exactly when the file has no
parseable columns, which is the one exception the loader catches; a file
with a header always parses (possibly to a zero-row frame).  save_to_cache
calls DataFrame.to_csv unconditionally, so it writes a file even for a
zero-row frame.
-/

/-- A persisted tabular fragment: column names and rows of raw strings. -/
structure Csv where
  cols : List String
  rows : List (List String)
deriving DecidableEq

/-- Cache key: operation name and parameter set.  The MD5 path component of
the source is a deterministic function of this pair. -/
abbrev EKey := String × Params

/-- Look up a file in the store. -/
def getFile (files : List (EKey × Nat × Csv)) (k : EKey) : Option (Nat × Csv) :=
  (files.find? (fun e => e.1 == k)).map (fun e => e.2)

/-- Write (or overwrite) a file in the store. -/
def setFile (files : List (EKey × Nat × Csv)) (k : EKey) (mtime : Nat)
    (data : Csv) : List (EKey × Nat × Csv) :=
  (k, mtime, data) :: files.filter (fun e => e.1 != k)

/-- Remove a file from the store (Path.unlink). -/
def delFile (files : List (EKey × Nat × Csv)) (k : EKey) :
    List (EKey × Nat × Csv) :=
  files.filter (fun e => e.1 != k)

/-- The cache engine state: the on-disk store (key, modification time and
content per file), the hit/missed/expired counters initialized to zero in
the constructor, and the current wall-clock time in days. -/
structure EngineState where
  files : List (EKey × Nat × Csv)
  hit : Nat
  missed : Nat
  expired : Nat
  now : Nat
deriving DecidableEq

/-- TushareCacheEngine.save_to_cache: writes the frame to the cache path
unconditionally (DataFrame.to_csv), stamping the current time. -/
def saveToCache (api : String) (ps : Params) (data : Csv) (s : EngineState) :
    EngineState :=
  { s with files := setFile s.files (api, ps) s.now data }

/-- TushareCacheEngine.load_from_cache: miss when the file is absent,
expired when its age exceeds the configured expiry window, otherwise a hit;
a hit on a file with no parseable columns raises EmptyDataError inside the
reader, which the engine handles by unlinking the file and counting a miss
on top of the already-counted hit. -/
def loadFromCache (profile : APIProfile) (api : String) (ps : Params)
    (s : EngineState) : Option Csv × EngineState :=
  match getFile s.files (api, ps) with
  | none => (none, { s with missed := s.missed + 1 })
  | some (mtime, data) =>
    if s.now - mtime > (profile.get_config api).expire_days then
      (none, { s with expired := s.expired + 1 })
    else
      let s1 := { s with hit := s.hit + 1 }
      if data.cols = [] then
        (none, { s1 with files := delFile s1.files (api, ps),
                         missed := s1.missed + 1 })
      else
        (some data, s1)

/-- Python round(x, 2): round half to even at two decimal places. -/
def roundHalfEven (q : ℚ) : ℤ :=
  let f := ⌊q⌋
  let r := q - f
  if r < 1 / 2 then f
  else if r > 1 / 2 then f + 1
  else if Even f then f else f + 1

/-- Two-decimal rounding used by statics. -/
def round2 (q : ℚ) : ℚ := (roundHalfEven (q * 100) : ℚ) / 100

/-- TushareCacheEngine.statics: the raw counters when no load has happened
yet, otherwise three percentage rates.  Returned as the key/value pairs of
the Python dict. -/
def statics (s : EngineState) : List (String × ℚ) :=
  let total := s.hit + s.missed + s.expired
  if total = 0 then
    [("hit", 0), ("missed", 0), ("expired", 0)]
  else
    [("hit_rate", round2 ((s.hit : ℚ) / total * 100)),
     ("miss_rate", round2 ((s.missed : ℚ) / total * 100)),
     ("expired_rate", round2 ((s.expired : ℚ) / total * 100))]

/-- The dictionary keys the failure diagnostic of TuShareProxy._query reads
from the statics dict, in evaluation order of the f-string. -/
def diagKeys : List String :=
  ["total", "hit", "missed", "expired", "hit_rate", "miss_rate", "expire_rate"]

/-- Outcome of the except branch of TuShareProxy._query. -/
inductive QueryFail where
  | keyError (k : String)
  | upstream (e : String) (stats : List (String × ℚ))
deriving DecidableEq

/-- The except branch of TuShareProxy._query on an upstream failure e: it
computes statics() and formats a diagnostic that indexes the keys of
diagKeys in order; the first key missing from the dict raises KeyError
before the original exception can be re-raised.  Only if every key were
present would the original upstream error propagate with the statistics. -/
def failureOutcome (e : String) (s : EngineState) : QueryFail :=
  match diagKeys.find? (fun k => ((statics s).lookup k).isNone) with
  | some k => .keyError k
  | none => .upstream e (statics s)

/-! ## Type coercion (src/core/tushare_proxy.py, _convert_dtypes)

The source casts df.astype({k: v for k, v in dtypes.items() if k in
df.columns}, errors="raise").  A failing cast raises the underlying pandas
ValueError, which carries the target type and the offending value; the
conversion routine receives neither the column being processed as error
context nor the operation name at all.  Converted cells are modelled as
their validated source strings (numeric re-rendering does not matter to any
claim); numeric parsability is modelled by a simple literal grammar.
-/

/-- The pandas dtypes appearing in FieldTypesConfig. -/
inductive DType where
  | str
  | float64
  | int64
deriving DecidableEq

/-- The ValueError payload of a failed astype cast: the target dtype and the
offending raw value.  There is no field-name and no operation-name component
because neither is available where the error is raised. -/
structure ConvErr where
  dtype : DType
  value : String
deriving DecidableEq

/-- Drop one leading sign character from a numeric literal. -/
def stripSign (cs : List Char) : List Char :=
  match cs with
  | c :: rest => if c = '-' || c = '+' then rest else c :: rest
  | [] => []

/-- Integer literal grammar: optional sign, one or more digits. -/
def parseIntOk (s : String) : Bool :=
  let t := stripSign s.toList
  !t.isEmpty && t.all Char.isDigit

/-- Float literal grammar: optional sign, digits with at most one dot and
at least one digit overall. -/
def parseFloatOk (s : String) : Bool :=
  let t := stripSign s.toList
  (t.any Char.isDigit) && t.all (fun c => c.isDigit || c == '.') &&
    decide (t.count '.' ≤ 1)

/-- Cast one cell to a declared dtype, or raise the pandas ValueError. -/
def castCell (d : DType) (v : String) : Except ConvErr String :=
  match d with
  | .str => .ok v
  | .int64 => if parseIntOk v then .ok v else .error ⟨.int64, v⟩
  | .float64 => if parseFloatOk v then .ok v else .error ⟨.float64, v⟩

/-- Convert one cell of a named column: columns absent from the schema pass
through unchanged (they are filtered out of the astype mapping). -/
def convCell (schema : List (String × DType)) (col v : String) :
    Except ConvErr String :=
  match schema.lookup col with
  | none => .ok v
  | some d => castCell d v

/-- Sequential error-propagating map: the first failing cast aborts the
whole conversion, exactly as errors="raise" does. -/
def exMap (f : α → Except ConvErr β) : List α → Except ConvErr (List β)
  | [] => .ok []
  | a :: as =>
    match f a with
    | .error e => .error e
    | .ok b =>
      match exMap f as with
      | .error e => .error e
      | .ok bs => .ok (b :: bs)

/-- Convert one row against the header. -/
def convRow (schema : List (String × DType)) (cols : List String)
    (r : List String) : Except ConvErr (List String) :=
  exMap (fun p => convCell schema p.1 p.2) (cols.zip r)

/-- TuShareProxy._convert_dtypes: cast every schema-typed column of the
frame, strictly; any single failing value fails the whole call. -/
def convertDtypes (schema : List (String × DType)) (df : Csv) :
    Except ConvErr Csv :=
  match exMap (convRow schema df.cols) df.rows with
  | .error e => .error e
  | .ok rs => .ok ⟨df.cols, rs⟩

/-- The full field-type schema of FieldTypesConfig.model_dump(). -/
def fieldTypesDump : List (String × DType) :=
  [("ts_code", .str), ("trade_date", .str), ("open", .float64),
   ("high", .float64), ("low", .float64), ("close", .float64),
   ("pre_close", .float64), ("change", .float64), ("pct_chg", .float64),
   ("vol", .float64), ("amount", .float64), ("exchange", .str),
   ("cal_date", .str), ("is_open", .str), ("pretrade_date", .str),
   ("symbol", .str), ("name", .str), ("area", .str), ("industry", .str),
   ("fullname", .str), ("enname", .str), ("cnspell", .str), ("market", .str),
   ("curr_type", .str), ("list_status", .str), ("list_date", .str),
   ("delist_date", .str), ("is_hs", .str), ("act_name", .str),
   ("act_ent_type", .str), ("up_limit", .float64), ("down_limit", .float64),
   ("price", .float64), ("open_num", .int64), ("lu_desc", .str),
   ("limit_type", .str), ("tag", .str), ("status", .str),
   ("first_lu_time", .str), ("last_lu_time", .str), ("first_ld_time", .str),
   ("last_ld_time", .str), ("limit_order", .float64),
   ("limit_amount", .float64), ("turnover_rate", .float64),
   ("free_float", .float64), ("lu_limit_order", .float64),
   ("limit_up_suc_rate", .float64), ("turnover", .float64),
   ("rise_rate", .float64), ("sum_float", .float64), ("market_type", .str),
   ("float_mv", .float64), ("total_mv", .float64),
   ("turnover_ratio", .float64), ("fd_amount", .float64),
   ("first_time", .str), ("last_time", .str), ("open_times", .int64),
   ("up_stat", .str), ("limit_times", .int64), ("limit", .str)]

/-! ## Unified query (src/core/tushare_proxy.py, TuShareProxy._query) -/

/-- A Python exception escaping _query. -/
inductive PyExc where
  | upstream (msg : String)
  | convErr (e : ConvErr)
  | keyError (k : String)
deriving DecidableEq

/-- TuShareProxy._query: optionally consult the cache (converting a hit
before returning it), otherwise call the upstream api and convert; inside
the except branch the diagnostic f-string indexes statics() with the keys of
diagKeys and the first missing key raises KeyError before the original
exception can be re-raised; a successful fresh fetch is saved only when the
frame is non-empty (both axes non-degenerate) and save_cache holds. -/
def queryE (fetch : String → Params → Except String Csv)
    (profile : APIProfile) (schema : List (String × DType)) (api : String)
    (ps : Params) (useCache saveCache : Bool) (s : EngineState) :
    Except PyExc (Csv × EngineState) :=
  let loaded := if useCache then loadFromCache profile api ps s else (none, s)
  match loaded with
  | (some cached, s1) =>
    match convertDtypes schema cached with
    | .error e => .error (.convErr e)
    | .ok df => .ok (df, s1)
  | (none, s1) =>
    let attempt : Except PyExc Csv :=
      match fetch api ps with
      | .error msg => .error (.upstream msg)
      | .ok raw =>
        match convertDtypes schema raw with
        | .error e => .error (.convErr e)
        | .ok fresh => .ok fresh
    match attempt with
    | .error exc =>
      match diagKeys.find? (fun k => ((statics s1).lookup k).isNone) with
      | some k => .error (.keyError k)
      | none => .error exc
    | .ok fresh =>
      let s2 :=
        if fresh.rows ≠ [] ∧ fresh.cols ≠ [] ∧ saveCache = true then
          saveToCache api ps fresh s1
        else s1
      .ok (fresh, s2)

theorem getFile_delFile (fs : List (EKey × Nat × Csv)) (k : EKey) :
    getFile (delFile fs k) k = none := by
  have h : (delFile fs k).find? (fun e => e.1 == k) = none := by
    rw [List.find?_eq_none]
    intro e he
    have hne := (List.mem_filter.mp he).2
    simpa [bne] using hne
  unfold getFile
  rw [h]
  rfl

theorem statics_lookup_total (s : EngineState) :
    ((statics s).lookup "total").isNone = true := by
  unfold statics
  by_cases h : s.hit + s.missed + s.expired = 0
  · simp only [h, if_pos]
    rfl
  · simp only [h, if_neg, ite_false]
    rfl

/-- C3 counterexample: save_to_cache persists a zero-row fragment (the
header-only CSV parses back to a zero-row frame), so a fresh load right
after saving an empty fragment does return a fragment, contradicting the
claim that no entry is loadable afterward. -/
theorem save_empty_fragment_loadable_cex :
    (loadFromCache {} "daily" [("ts_code", some "000001.SZ")]
        (saveToCache "daily" [("ts_code", some "000001.SZ")]
          ⟨["ts_code", "trade_date"], []⟩ ⟨[], 0, 0, 0, 0⟩)).1 =
      some ⟨["ts_code", "trade_date"], []⟩ := by
  rfl

/-- C3 amended: the zero-row guard lives in the query layer, not in
save_to_cache: when the cache misses and the upstream fetch returns a
zero-row frame, _query does not save it, the store is left unchanged, and a
subsequent load still finds nothing. -/
theorem query_empty_fetch_not_saved
    (fetch : String → Params → Except String Csv) (profile : APIProfile)
    (schema : List (String × DType)) (api : String) (ps : Params)
    (saveCache : Bool) (s : EngineState) (cols : List String)
    (hmiss : getFile s.files (api, ps) = none)
    (hfetch : fetch api ps = .ok ⟨cols, []⟩) :
    queryE fetch profile schema api ps true saveCache s =
      .ok (⟨cols, []⟩, { s with missed := s.missed + 1 }) ∧
    (loadFromCache profile api ps { s with missed := s.missed + 1 }).1 =
      none := by
  constructor
  · simp only [queryE, loadFromCache, hmiss, hfetch, if_true]
    simp [convertDtypes, exMap]
  · simp only [loadFromCache, hmiss]

/-- Witness for C3 amended at a concrete store, fetch and parameter set. -/
theorem query_empty_fetch_not_saved_witness :
    getFile ([] : List (EKey × Nat × Csv)) ("stk_limit", []) = none ∧
    ((fun (_ : String) (_ : Params) =>
        (.ok ⟨["ts_code"], []⟩ : Except String Csv)) "stk_limit" [] =
      .ok ⟨["ts_code"], []⟩) ∧
    (queryE (fun _ _ => .ok ⟨["ts_code"], []⟩) {} fieldTypesDump "stk_limit"
        [] true true ⟨[], 0, 0, 0, 0⟩ =
      .ok (⟨["ts_code"], []⟩, ⟨[], 0, 1, 0, 0⟩) ∧
    (loadFromCache {} "stk_limit" [] ⟨[], 0, 1, 0, 0⟩).1 = none) :=
  ⟨rfl, rfl,
   query_empty_fetch_not_saved (fun _ _ => .ok ⟨["ts_code"], []⟩) {}
     fieldTypesDump "stk_limit" [] true ⟨[], 0, 0, 0, 0⟩ ["ts_code"]
     rfl rfl⟩

/-- C5: an entry written at time T under an operation whose expiry window is
E days loads as fresh at T + E - 1 days, incrementing the hit counter, and
as expired (Absent) at T + E + 1 days, incrementing the expired counter and
leaving the stale file in place. -/
theorem load_expiry_boundary (profile : APIProfile) (api : String)
    (ps : Params) (s : EngineState) (T E : Nat) (data : Csv)
    (hfile : getFile s.files (api, ps) = some (T, data))
    (hcols : data.cols ≠ [])
    (hE : (profile.get_config api).expire_days = E) (hE1 : 1 ≤ E) :
    loadFromCache profile api ps { s with now := T + E - 1 } =
      (some data, { s with now := T + E - 1, hit := s.hit + 1 }) ∧
    loadFromCache profile api ps { s with now := T + E + 1 } =
      (none, { s with now := T + E + 1, expired := s.expired + 1 }) := by
  constructor
  · simp only [loadFromCache, hfile, hE]
    rw [if_neg (by omega), if_neg hcols]
  · simp only [loadFromCache, hfile, hE]
    rw [if_pos (by omega)]

/-- Witness for C5 at a concrete entry written at day 10 with a five-day
expiry window. -/
theorem load_expiry_boundary_witness :
    getFile [(("daily", [("ts_code", some "A")]), 10, ⟨["ts_code"], [["A"]]⟩)]
        ("daily", [("ts_code", some "A")]) =
      some (10, ⟨["ts_code"], [["A"]]⟩) ∧
    (⟨["ts_code"], [["A"]]⟩ : Csv).cols ≠ [] ∧
    (({} : APIProfile).get_config "daily").expire_days = 5 ∧ 1 ≤ 5 ∧
    (loadFromCache {} "daily" [("ts_code", some "A")]
        ⟨[(("daily", [("ts_code", some "A")]), 10, ⟨["ts_code"], [["A"]]⟩)],
         2, 3, 4, 14⟩ =
      (some ⟨["ts_code"], [["A"]]⟩,
       ⟨[(("daily", [("ts_code", some "A")]), 10, ⟨["ts_code"], [["A"]]⟩)],
        3, 3, 4, 14⟩) ∧
     loadFromCache {} "daily" [("ts_code", some "A")]
        ⟨[(("daily", [("ts_code", some "A")]), 10, ⟨["ts_code"], [["A"]]⟩)],
         2, 3, 4, 16⟩ =
      (none,
       ⟨[(("daily", [("ts_code", some "A")]), 10, ⟨["ts_code"], [["A"]]⟩)],
        2, 3, 5, 16⟩)) :=
  ⟨rfl, by decide, rfl, by decide,
   load_expiry_boundary {} "daily" [("ts_code", some "A")]
     ⟨[(("daily", [("ts_code", some "A")]), 10, ⟨["ts_code"], [["A"]]⟩)],
      2, 3, 4, 0⟩ 10 5 ⟨["ts_code"], [["A"]]⟩ rfl (by decide) rfl
     (by decide)⟩

/-- C6: loading a present, unexpired entry whose file has no parseable
content returns Absent, increments the miss counter, removes the corrupt
file so a later save can succeed, and propagates no error. -/
theorem load_corrupt_self_heal (profile : APIProfile) (api : String)
    (ps : Params) (s : EngineState) (mtime : Nat) (data : Csv)
    (hfile : getFile s.files (api, ps) = some (mtime, data))
    (hfresh : s.now - mtime ≤ (profile.get_config api).expire_days)
    (hcorrupt : data.cols = []) :
    loadFromCache profile api ps s =
      (none, { s with hit := s.hit + 1, missed := s.missed + 1,
                      files := delFile s.files (api, ps) }) ∧
    getFile (delFile s.files (api, ps)) (api, ps) = none := by
  refine ⟨?_, getFile_delFile s.files (api, ps)⟩
  simp only [loadFromCache, hfile]
  rw [if_neg (by omega), if_pos hcorrupt]

/-- Witness for C6 at a concrete corrupt entry. -/
theorem load_corrupt_self_heal_witness :
    getFile [(("trade_cal", []), 3, ⟨[], []⟩)] ("trade_cal", []) =
      some (3, ⟨[], []⟩) ∧
    (4 : Nat) - 3 ≤ (({} : APIProfile).get_config "trade_cal").expire_days ∧
    (⟨[], []⟩ : Csv).cols = [] ∧
    (loadFromCache {} "trade_cal" []
        ⟨[(("trade_cal", []), 3, ⟨[], []⟩)], 0, 0, 0, 4⟩ =
      (none, ⟨[], 1, 1, 0, 4⟩) ∧
     getFile (delFile [(("trade_cal", []), 3, ⟨[], []⟩)] ("trade_cal", []))
        ("trade_cal", []) = none) :=
  ⟨rfl, by decide, rfl,
   load_corrupt_self_heal {} "trade_cal" []
     ⟨[(("trade_cal", []), 3, ⟨[], []⟩)], 0, 0, 0, 4⟩ 3 ⟨[], []⟩
     rfl (by decide) rfl⟩

/-- C9: on the corrupt-file path a single load_from_cache call increments
both the hit and the miss counter, so the three counters together grow by
two for one load call and the exactly-one-counter invariant fails. -/
theorem load_corrupt_double_count (profile : APIProfile) (api : String)
    (ps : Params) (s : EngineState) (mtime : Nat) (data : Csv)
    (hfile : getFile s.files (api, ps) = some (mtime, data))
    (hfresh : s.now - mtime ≤ (profile.get_config api).expire_days)
    (hcorrupt : data.cols = []) :
    ∃ s2, loadFromCache profile api ps s = (none, s2) ∧
      s2.hit = s.hit + 1 ∧ s2.missed = s.missed + 1 ∧
      s2.expired = s.expired ∧
      s2.hit + s2.missed + s2.expired =
        s.hit + s.missed + s.expired + 2 := by
  have hload : loadFromCache profile api ps s =
      (none, { s with hit := s.hit + 1, missed := s.missed + 1,
                      files := delFile s.files (api, ps) }) := by
    simp only [loadFromCache, hfile]
    rw [if_neg (by omega), if_pos hcorrupt]
  exact ⟨_, hload, rfl, rfl, rfl, by
    show s.hit + 1 + (s.missed + 1) + s.expired =
      s.hit + s.missed + s.expired + 2
    omega⟩

/-- Witness for C9 at a concrete corrupt entry. -/
theorem load_corrupt_double_count_witness :
    getFile [(("daily", [("trade_date", some "20240101")]), 7, ⟨[], []⟩)]
        ("daily", [("trade_date", some "20240101")]) =
      some (7, ⟨[], []⟩) ∧
    (9 : Nat) - 7 ≤ (({} : APIProfile).get_config "daily").expire_days ∧
    (⟨[], []⟩ : Csv).cols = [] ∧
    (∃ s2, loadFromCache {} "daily" [("trade_date", some "20240101")]
        ⟨[(("daily", [("trade_date", some "20240101")]), 7, ⟨[], []⟩)],
         5, 6, 7, 9⟩ = (none, s2) ∧
      s2.hit = 5 + 1 ∧ s2.missed = 6 + 1 ∧ s2.expired = 7 ∧
      s2.hit + s2.missed + s2.expired = 5 + 6 + 7 + 2) :=
  ⟨rfl, by decide, rfl,
   load_corrupt_double_count {} "daily" [("trade_date", some "20240101")]
     ⟨[(("daily", [("trade_date", some "20240101")]), 7, ⟨[], []⟩)],
      5, 6, 7, 9⟩ 7 ⟨[], []⟩ rfl (by decide) rfl⟩

/-- C7: when the upstream call fails, _query runs its diagnostic formatter
inside the except branch, but statics() never returns a dict containing the
key total (nor the other keys the f-string mixes in), so the formatter
itself raises KeyError("total") for every engine state: the error that
propagates is the KeyError, and the hit/miss/expired statistics are never
attached to the reported failure. -/
theorem upstream_failure_raises_keyerror_total (profile : APIProfile)
    (schema : List (String × DType)) (api : String) (ps : Params)
    (saveCache : Bool) (s : EngineState) (msg : String) :
    queryE (fun _ _ => .error msg) profile schema api ps false saveCache s =
      .error (.keyError "total") := by
  simp only [queryE, Bool.false_eq_true, if_false, diagKeys, List.find?]
  rw [statics_lookup_total s]

/-- Success test for the coercion result. -/
def isOkE : Except ConvErr α → Bool
  | .ok _ => true
  | .error _ => false

theorem exMap_isOk_iff (f : α → Except ConvErr β) (l : List α) :
    isOkE (exMap f l) = true ↔ ∀ a ∈ l, isOkE (f a) = true := by
  induction l with
  | nil => simp [exMap, isOkE]
  | cons a as ih =>
    simp only [exMap]
    cases hfa : f a with
    | error e => simp [isOkE, hfa]
    | ok b =>
      cases hrest : exMap f as with
      | error e =>
        rw [hrest] at ih
        simp only [isOkE] at ih ⊢
        simp [hfa, ← ih]
      | ok bs =>
        rw [hrest] at ih
        simp only [isOkE] at ih ⊢
        simp [hfa, ← ih]

theorem exMap_ok_forall2 (f : α → Except ConvErr β) :
    ∀ (l : List α) (l2 : List β), exMap f l = .ok l2 →
      List.Forall₂ (fun a b => f a = .ok b) l l2 := by
  intro l
  induction l with
  | nil =>
    intro l2 h
    simp only [exMap] at h
    cases h
    exact List.Forall₂.nil
  | cons a as ih =>
    intro l2 h
    simp only [exMap] at h
    cases hfa : f a with
    | error e => rw [hfa] at h; cases h
    | ok b =>
      rw [hfa] at h
      cases hrest : exMap f as with
      | error e => rw [hrest] at h; cases h
      | ok bs =>
        rw [hrest] at h
        cases h
        exact List.Forall₂.cons hfa (ih bs hrest)

theorem convertDtypes_isOk (schema : List (String × DType)) (df : Csv) :
    isOkE (convertDtypes schema df) =
      isOkE (exMap (convRow schema df.cols) df.rows) := by
  unfold convertDtypes
  cases hex : exMap (convRow schema df.cols) df.rows <;> simp [isOkE]

theorem convRows_forall2 (schema : List (String × DType)) (cols : List String) :
    ∀ (rows rcs : List (List String)), (∀ r ∈ rows, r.length = cols.length) →
      List.Forall₂ (fun r rc => convRow schema cols r = .ok rc) rows rcs →
      List.Forall₂ (fun r rc =>
        rc.length = r.length ∧
        List.Forall₂ (fun (p : String × String) (v : String) =>
          convCell schema p.1 p.2 = .ok v ∧
          (schema.lookup p.1 = none → v = p.2)) (cols.zip r) rc) rows rcs := by
  intro rows
  induction rows with
  | nil =>
    intro rcs _ h
    cases h
    exact List.Forall₂.nil
  | cons r rest ih =>
    intro rcs hwf h
    cases h with
    | cons hr hrest =>
      rename_i rc rcs2
      refine List.Forall₂.cons ?_
        (ih rcs2 (fun x hx => hwf x (List.mem_cons_of_mem r hx)) hrest)
      have hr1 : exMap (fun p => convCell schema p.1 p.2) (cols.zip r) =
          .ok rc := hr
      have hinner := exMap_ok_forall2 (fun p => convCell schema p.1 p.2)
        (cols.zip r) rc hr1
      refine ⟨?_, ?_⟩
      · have hlen := hinner.length_eq
        have hrlen := hwf r (List.mem_cons_self r rest)
        have hzip : (cols.zip r).length = r.length := by
          simp [List.length_zip, hrlen]
        omega
      · refine hinner.imp ?_
        intro p v hpv
        have hpv2 : convCell schema p.1 p.2 = .ok v := hpv
        refine ⟨hpv2, fun hnone => ?_⟩
        unfold convCell at hpv2
        rw [hnone] at hpv2
        injection hpv2 with h2
        exact h2.symm

instance {ε α : Type} [DecidableEq ε] [DecidableEq α] :
    DecidableEq (Except ε α) := fun a b =>
  match a, b with
  | .ok x, .ok y =>
    if h : x = y then .isTrue (by rw [h]) else .isFalse (by simp [h])
  | .error x, .error y =>
    if h : x = y then .isTrue (by rw [h]) else .isFalse (by simp [h])
  | .ok _, .error _ => .isFalse (by simp)
  | .error _, .ok _ => .isFalse (by simp)

/-- C8 counterexample: two conversions that fail on different offending
fields (open versus high), in calls made on behalf of different operations,
produce the very same error value; the conversion routine receives no
operation name at all and the raised pandas error carries only the target
dtype and the offending value, so the error cannot identify the offending
field or the operation. -/
theorem convert_error_identifies_neither_cex :
    convertDtypes fieldTypesDump ⟨["open"], [["x"]]⟩ =
        .error ⟨.float64, "x"⟩ ∧
    convertDtypes fieldTypesDump ⟨["high"], [["x"]]⟩ =
        .error ⟨.float64, "x"⟩ := by
  constructor <;> decide

/-- C8 amended: coercion is strict and all-or-nothing: the call succeeds
exactly when every cell under a schema-typed column casts, and on success
the header is preserved, every row keeps its length, every cell is the
result of its cast, and cells of columns absent from the schema pass
through unchanged.  On any failing value the whole call fails, but the
error identifies only the target dtype and offending value, not the field
or the operation. -/
theorem convertDtypes_strict_passthrough (schema : List (String × DType))
    (df : Csv) (hwf : ∀ r ∈ df.rows, r.length = df.cols.length) :
    (isOkE (convertDtypes schema df) = true ↔
      ∀ r ∈ df.rows, ∀ p ∈ df.cols.zip r,
        isOkE (convCell schema p.1 p.2) = true) ∧
    (∀ dfc, convertDtypes schema df = .ok dfc →
      dfc.cols = df.cols ∧
      List.Forall₂ (fun r rc =>
        rc.length = r.length ∧
        List.Forall₂ (fun (p : String × String) (v : String) =>
          convCell schema p.1 p.2 = .ok v ∧
          (schema.lookup p.1 = none → v = p.2))
          (df.cols.zip r) rc) df.rows dfc.rows) := by
  constructor
  · rw [convertDtypes_isOk, exMap_isOk_iff]
    constructor
    · intro h r hr
      have h2 : isOkE (exMap (fun p => convCell schema p.1 p.2)
          (df.cols.zip r)) = true := h r hr
      exact (exMap_isOk_iff (fun p => convCell schema p.1 p.2)
        (df.cols.zip r)).mp h2
    · intro h r hr
      show isOkE (exMap (fun p => convCell schema p.1 p.2)
        (df.cols.zip r)) = true
      exact (exMap_isOk_iff (fun p => convCell schema p.1 p.2)
        (df.cols.zip r)).mpr (h r hr)
  · intro dfc hok
    unfold convertDtypes at hok
    cases hex : exMap (convRow schema df.cols) df.rows with
    | error e =>
      rw [hex] at hok
      cases hok
    | ok rs =>
      rw [hex] at hok
      cases hok
      exact ⟨rfl, convRows_forall2 schema df.cols df.rows rs hwf
        (exMap_ok_forall2 (convRow schema df.cols) df.rows rs hex)⟩

/-- Witness for C8 amended at a concrete fragment mixing a schema-typed
column, a passthrough column and a numeric cast. -/
theorem convertDtypes_strict_passthrough_witness :
    (∀ r ∈ (⟨["ts_code", "open", "extra"],
        [["000001.SZ", "3.14", "free"]]⟩ : Csv).rows,
      r.length = (⟨["ts_code", "open", "extra"],
        [["000001.SZ", "3.14", "free"]]⟩ : Csv).cols.length) ∧
    ((isOkE (convertDtypes fieldTypesDump
        ⟨["ts_code", "open", "extra"], [["000001.SZ", "3.14", "free"]]⟩) =
          true ↔
      ∀ r ∈ (⟨["ts_code", "open", "extra"],
          [["000001.SZ", "3.14", "free"]]⟩ : Csv).rows,
        ∀ p ∈ (⟨["ts_code", "open", "extra"],
            [["000001.SZ", "3.14", "free"]]⟩ : Csv).cols.zip r,
          isOkE (convCell fieldTypesDump p.1 p.2) = true) ∧
    (∀ dfc, convertDtypes fieldTypesDump
        ⟨["ts_code", "open", "extra"], [["000001.SZ", "3.14", "free"]]⟩ =
          .ok dfc →
      dfc.cols = (⟨["ts_code", "open", "extra"],
        [["000001.SZ", "3.14", "free"]]⟩ : Csv).cols ∧
      List.Forall₂ (fun r rc =>
        rc.length = r.length ∧
        List.Forall₂ (fun (p : String × String) (v : String) =>
          convCell fieldTypesDump p.1 p.2 = .ok v ∧
          (fieldTypesDump.lookup p.1 = none → v = p.2))
          ((⟨["ts_code", "open", "extra"],
            [["000001.SZ", "3.14", "free"]]⟩ : Csv).cols.zip r) rc)
        (⟨["ts_code", "open", "extra"],
          [["000001.SZ", "3.14", "free"]]⟩ : Csv).rows dfc.rows)) :=
  ⟨by decide,
   convertDtypes_strict_passthrough fieldTypesDump
     ⟨["ts_code", "open", "extra"], [["000001.SZ", "3.14", "free"]]⟩
     (by decide)⟩

/-! ## Incremental range reconciler
(src/core/tushare_proxy.py, _smart_incremental_query)

At this level fragments are lists of typed rows (the frames have already
passed dtype conversion, under which ts_code and trade_date are strings and
are modelled unchanged; the remaining numeric columns are abstracted into
one payload).  Dates are day numbers, so strftime/strptime are the identity
and the one-day offsets of the gap bounds are plus and minus one.  The
state additionally logs the externally visible effects of a run: upstream
fetches, file unlinks and cache saves. -/

/-- One typed row of a range-shaped result. -/
structure Row where
  ts_code : String
  trade_date : Nat
  payload : Int
deriving DecidableEq

/-- A typed fragment. -/
abbrev Frag := List Row

/-- The keyword arguments of a range-capable proxy method. -/
structure SParams where
  ts_code : Option String := none
  trade_date : Option Nat := none
  start_date : Option Nat := none
  end_date : Option Nat := none
deriving DecidableEq

/-- Externally visible effects of a reconciliation run. -/
inductive Event where
  | fetch (api : String) (ps : SParams)
  | unlink (api : String) (ps : SParams)
  | save (api : String) (ps : SParams)
deriving DecidableEq

/-- Reconciler-level engine state: cache files (modification time and typed
fragment per key), the three counters, the current time and the effect
log. -/
structure SState where
  files : List ((String × SParams) × Nat × Frag)
  hit : Nat
  missed : Nat
  expired : Nat
  now : Nat
  events : List Event
deriving DecidableEq

/-- Look up a cache file. -/
def sGet (files : List ((String × SParams) × Nat × Frag))
    (k : String × SParams) : Option (Nat × Frag) :=
  (files.find? (fun e => e.1 == k)).map (fun e => e.2)

/-- Write (or overwrite) a cache file. -/
def sSet (files : List ((String × SParams) × Nat × Frag))
    (k : String × SParams) (mtime : Nat) (f : Frag) :
    List ((String × SParams) × Nat × Frag) :=
  (k, mtime, f) :: files.filter (fun e => e.1 != k)

/-- Remove a cache file (Path.unlink). -/
def sDelF (files : List ((String × SParams) × Nat × Frag))
    (k : String × SParams) : List ((String × SParams) × Nat × Frag) :=
  files.filter (fun e => e.1 != k)

/-- load_from_cache at the reconciler level.  Fragments saved here always
carry the standard header when serialized, so the corrupt-file branch of
the engine cannot trigger; counters and the freshness test are those of
loadFromCache. -/
def sLoad (profile : APIProfile) (api : String) (ps : SParams)
    (s : SState) : Option Frag × SState :=
  match sGet s.files (api, ps) with
  | none => (none, { s with missed := s.missed + 1 })
  | some (mtime, f) =>
    if s.now - mtime > (profile.get_config api).expire_days then
      (none, { s with expired := s.expired + 1 })
    else
      (some f, { s with hit := s.hit + 1 })

/-- save_to_cache at the reconciler level: write the fragment with the
current time as modification time and log the save. -/
def sSave (api : String) (ps : SParams) (f : Frag) (s : SState) : SState :=
  { s with files := sSet s.files (api, ps) s.now f,
           events := s.events ++ [Event.save api ps] }

/-- TuShareProxy._query at the reconciler level: consult the cache when
use_cache holds and return a hit directly; otherwise call upstream (logging
the fetch), propagate a failure, and save the fresh result only when it is
non-empty and save_cache holds.  Dtype conversion is the identity on typed
rows. -/
def squery (fetch : String → SParams → Except String Frag)
    (profile : APIProfile) (api : String) (ps : SParams)
    (useCache saveCache : Bool) (s : SState) :
    Except String (Frag × SState) :=
  let loaded := if useCache then sLoad profile api ps s else (none, s)
  match loaded with
  | (some f, s1) => .ok (f, s1)
  | (none, s1) =>
    match fetch api ps with
    | .error e => .error e
    | .ok fresh =>
      let s2 := { s1 with events := s1.events ++ [Event.fetch api ps] }
      if fresh ≠ [] ∧ saveCache = true then
        .ok (fresh, sSave api ps fresh s2)
      else
        .ok (fresh, s2)

/-- pd.concat folded with drop_duplicates(subset=[ts_code, trade_date],
keep="first"): keep the first occurrence of every (ts_code, trade_date)
pair, preserving order, so the fragment listed first wins a conflict. -/
def dropDuplicates (f : Frag) : Frag :=
  f.foldl (fun acc r =>
    if acc.any (fun x => x.ts_code == r.ts_code &&
        x.trade_date == r.trade_date) then acc
    else acc ++ [r]) []

/-- The cache parameter set _smart_incremental_query builds for a window:
the entity plus the window bounds. -/
def cacheParamsOf (ts_code : String) (a b : Nat) : SParams :=
  { ts_code := some ts_code, start_date := some a, end_date := some b }

/-- TuShareProxy._smart_incremental_query: load the baseline fragment for
the reference window (a cache miss there falls back to a full-window
upstream fetch inside squery), detect the early and late gaps against the
window bounds, fetch each detected gap with caching bypassed, merge a
non-empty gap result in front of the running fragment preferring the fresh
rows and advance the corresponding boundary, then, whenever a gap was
detected, unlink the old window entry (if present) and save the merged
fragment under parameters built from the current bounds; finally project
the fragment onto the requested closed range. -/
def smartIncrementalQuery (fetch : String → SParams → Except String Frag)
    (profile : APIProfile) (api : String) (ts_code : String)
    (start_date end_date : Nat) (cache_start cache_end : Nat)
    (origParams : SParams) (s : SState) : Except String (Frag × SState) :=
  let req_start := start_date
  let req_end := end_date
  let cacheParams := cacheParamsOf ts_code cache_start cache_end
  match squery fetch profile api cacheParams true true s with
  | .error e => .error e
  | .ok (cached0, s0) =>
    let need_early := decide (req_start < cache_start)
    let need_late := decide (req_end > cache_end)
    let step1 : Except String (Frag × Nat × SState) :=
      if need_early then
        match squery fetch profile api
            { origParams with start_date := some req_start,
                              end_date := some (cache_start - 1) }
            false false s0 with
        | .error e => .error e
        | .ok (ed, s1) =>
          if ed ≠ [] then
            .ok (dropDuplicates (ed ++ cached0), req_start, s1)
          else
            .ok (cached0, cache_start, s1)
      else .ok (cached0, cache_start, s0)
    match step1 with
    | .error e => .error e
    | .ok (cached1, curMin, s1) =>
      let step2 : Except String (Frag × Nat × SState) :=
        if need_late then
          match squery fetch profile api
              { origParams with start_date := some (cache_end + 1),
                                end_date := some req_end }
              false false s1 with
          | .error e => .error e
          | .ok (ld, s2) =>
            if ld ≠ [] then
              .ok (dropDuplicates (ld ++ cached1), req_end, s2)
            else
              .ok (cached1, cache_end, s2)
        else .ok (cached1, cache_end, s1)
      match step2 with
      | .error e => .error e
      | .ok (cached2, curMax, s2) =>
        let s3 :=
          if need_early || need_late then
            let sDel :=
              if (sGet s2.files (api, cacheParams)).isSome then
                { s2 with files := sDelF s2.files (api, cacheParams),
                          events := s2.events ++ [Event.unlink api cacheParams] }
              else s2
            sSave api (cacheParamsOf ts_code curMin curMax) cached2 sDel
          else s2
        .ok (cached2.filter (fun r =>
          decide (req_start ≤ r.trade_date) &&
            decide (r.trade_date ≤ req_end)), s3)

/-- C1: a range request lying entirely inside a fresh cached reference
window causes no upstream fetch (the effect log gains no event at all) and
returns exactly the cached rows whose trade_date lies in the requested
closed interval; the state changes only by the hit counter of the baseline
load. -/
theorem smart_covered_request_no_fetch
    (fetch : String → SParams → Except String Frag) (profile : APIProfile)
    (api ts_code : String) (req_start req_end cache_start cache_end : Nat)
    (origParams : SParams) (s : SState) (mtime : Nat) (F : Frag)
    (hfile : sGet s.files (api, cacheParamsOf ts_code cache_start cache_end) =
      some (mtime, F))
    (hfresh : s.now - mtime ≤ (profile.get_config api).expire_days)
    (hlo : cache_start ≤ req_start) (hhi : req_end ≤ cache_end) :
    smartIncrementalQuery fetch profile api ts_code req_start req_end
        cache_start cache_end origParams s =
      .ok (F.filter (fun r => decide (req_start ≤ r.trade_date) &&
            decide (r.trade_date ≤ req_end)),
           { s with hit := s.hit + 1 }) := by
  simp only [smartIncrementalQuery, squery, sLoad, hfile]
  rw [if_neg (Nat.not_lt.mpr hfresh)]
  simp only [decide_eq_false (Nat.not_lt.mpr hlo),
    decide_eq_false (Nat.not_lt.mpr hhi), Bool.false_eq_true, if_false,
    Bool.or_self, if_true]

/-- Witness for C1 at a concrete fresh window [10,20], a covered request
[12,18] and a fetch function that always fails, so any upstream call would
have aborted the run. -/
theorem smart_covered_request_no_fetch_witness :
    sGet [(("daily", cacheParamsOf "000001.SZ" 10 20), 3,
        [⟨"000001.SZ", 11, 0⟩, ⟨"000001.SZ", 15, 1⟩, ⟨"000001.SZ", 19, 2⟩])]
      ("daily", cacheParamsOf "000001.SZ" 10 20) =
      some (3, [⟨"000001.SZ", 11, 0⟩, ⟨"000001.SZ", 15, 1⟩,
        ⟨"000001.SZ", 19, 2⟩]) ∧
    (4 : Nat) - 3 ≤ (({} : APIProfile).get_config "daily").expire_days ∧
    (10 : Nat) ≤ 12 ∧ (18 : Nat) ≤ 20 ∧
    smartIncrementalQuery (fun _ _ => .error "offline") {} "daily"
        "000001.SZ" 12 18 10 20 ⟨some "000001.SZ", none, some 12, some 18⟩
        ⟨[(("daily", cacheParamsOf "000001.SZ" 10 20), 3,
           [⟨"000001.SZ", 11, 0⟩, ⟨"000001.SZ", 15, 1⟩,
            ⟨"000001.SZ", 19, 2⟩])], 0, 0, 0, 4, []⟩ =
      .ok (List.filter (fun r =>
            decide (12 ≤ r.trade_date) && decide (r.trade_date ≤ 18))
          [⟨"000001.SZ", 11, 0⟩, ⟨"000001.SZ", 15, 1⟩, ⟨"000001.SZ", 19, 2⟩],
        ⟨[(("daily", cacheParamsOf "000001.SZ" 10 20), 3,
           [⟨"000001.SZ", 11, 0⟩, ⟨"000001.SZ", 15, 1⟩,
            ⟨"000001.SZ", 19, 2⟩])], 0 + 1, 0, 0, 4, []⟩) :=
  ⟨rfl, by decide, by decide, by decide,
   smart_covered_request_no_fetch (fun _ _ => .error "offline") {} "daily"
     "000001.SZ" 12 18 10 20 ⟨some "000001.SZ", none, some 12, some 18⟩
     ⟨[(("daily", cacheParamsOf "000001.SZ" 10 20), 3,
        [⟨"000001.SZ", 11, 0⟩, ⟨"000001.SZ", 15, 1⟩, ⟨"000001.SZ", 19, 2⟩])],
      0, 0, 0, 4, []⟩ 3
     [⟨"000001.SZ", 11, 0⟩, ⟨"000001.SZ", 15, 1⟩, ⟨"000001.SZ", 19, 2⟩]
     rfl (by decide) (by decide) (by decide)⟩

/-- C2 counterexample: fresh baseline for window [10,20] written at day 5,
request [10,25] at day 6, and an upstream that answers the late gap [21,25]
with an empty frame.  The claim says the baseline entry on disk must be
left untouched, but the run logs an unlink and a save of the very same
window parameters and the entry modification time advances from 5 to 6. -/
theorem smart_empty_gap_rewrites_baseline_cex :
    smartIncrementalQuery (fun _ _ => .ok []) {} "daily" "000001.SZ"
        10 25 10 20 ⟨some "000001.SZ", none, some 10, some 25⟩
        ⟨[(("daily", cacheParamsOf "000001.SZ" 10 20), 5,
           [⟨"000001.SZ", 15, 0⟩])], 0, 0, 0, 6, []⟩ =
      .ok ([⟨"000001.SZ", 15, 0⟩],
        ⟨[(("daily", cacheParamsOf "000001.SZ" 10 20), 6,
           [⟨"000001.SZ", 15, 0⟩])], 1, 0, 0, 6,
         [Event.fetch "daily"
            ⟨some "000001.SZ", none, some 21, some 25⟩,
          Event.unlink "daily" (cacheParamsOf "000001.SZ" 10 20),
          Event.save "daily" (cacheParamsOf "000001.SZ" 10 20)]⟩) := by
  rfl

/-- C2 amended: window promotion is keyed on gap detection, not on data
actually merged: when a late gap is detected but its fetch returns an empty
frame, the boundary does not advance, yet the old baseline entry is still
unlinked and the fragment is re-saved under the same window parameters with
a refreshed modification time; only a request with no detected gap leaves
the baseline entry untouched. -/
theorem smart_empty_late_gap_promotes_same_window
    (fetch : String → SParams → Except String Frag) (profile : APIProfile)
    (api ts_code : String) (req_start req_end cache_start cache_end : Nat)
    (origParams : SParams) (s : SState) (mtime : Nat) (F : Frag)
    (hfile : sGet s.files (api, cacheParamsOf ts_code cache_start cache_end) =
      some (mtime, F))
    (hfresh : s.now - mtime ≤ (profile.get_config api).expire_days)
    (hlo : cache_start ≤ req_start) (hlate : cache_end < req_end)
    (hfetch : fetch api
        { origParams with start_date := some (cache_end + 1),
                          end_date := some req_end } = .ok []) :
    smartIncrementalQuery fetch profile api ts_code req_start req_end
        cache_start cache_end origParams s =
      .ok (F.filter (fun r => decide (req_start ≤ r.trade_date) &&
            decide (r.trade_date ≤ req_end)),
        { s with
          files := sSet (sDelF s.files
              (api, cacheParamsOf ts_code cache_start cache_end))
            (api, cacheParamsOf ts_code cache_start cache_end) s.now F,
          hit := s.hit + 1,
          events := s.events ++
            [Event.fetch api
              { origParams with start_date := some (cache_end + 1),
                                end_date := some req_end },
             Event.unlink api (cacheParamsOf ts_code cache_start cache_end),
             Event.save api (cacheParamsOf ts_code cache_start cache_end)] }) := by
  simp only [smartIncrementalQuery, squery, sLoad, hfile]
  rw [if_neg (Nat.not_lt.mpr hfresh)]
  simp only [decide_eq_false (Nat.not_lt.mpr hlo), decide_eq_true hlate,
    Bool.false_eq_true, if_false, if_true, Bool.false_or, hfetch, sSave,
    sSet, sDelF]
  simp [hfile]

/-- Witness for the amended C2 at a concrete window [100,200], request
[150,260] and an upstream answering every call with an empty frame. -/
theorem smart_empty_late_gap_promotes_same_window_witness :
    sGet [(("stk_limit", cacheParamsOf "000002.SZ" 100 200), 7,
        [⟨"000002.SZ", 150, 5⟩, ⟨"000002.SZ", 200, 6⟩])]
      ("stk_limit", cacheParamsOf "000002.SZ" 100 200) =
      some (7, [⟨"000002.SZ", 150, 5⟩, ⟨"000002.SZ", 200, 6⟩]) ∧
    (9 : Nat) - 7 ≤ (({} : APIProfile).get_config "stk_limit").expire_days ∧
    (100 : Nat) ≤ 150 ∧ (200 : Nat) < 260 ∧
    ((fun (_ : String) (_ : SParams) => (.ok [] : Except String Frag))
        "stk_limit" ⟨some "000002.SZ", none, some 201, some 260⟩ = .ok []) ∧
    smartIncrementalQuery (fun _ _ => .ok []) {} "stk_limit" "000002.SZ"
        150 260 100 200 ⟨some "000002.SZ", none, some 150, some 260⟩
        ⟨[(("stk_limit", cacheParamsOf "000002.SZ" 100 200), 7,
           [⟨"000002.SZ", 150, 5⟩, ⟨"000002.SZ", 200, 6⟩])],
         0, 0, 0, 9, []⟩ =
      .ok (List.filter (fun r =>
            decide (150 ≤ r.trade_date) && decide (r.trade_date ≤ 260))
          [⟨"000002.SZ", 150, 5⟩, ⟨"000002.SZ", 200, 6⟩],
        ⟨sSet (sDelF [(("stk_limit", cacheParamsOf "000002.SZ" 100 200), 7,
              [⟨"000002.SZ", 150, 5⟩, ⟨"000002.SZ", 200, 6⟩])]
            ("stk_limit", cacheParamsOf "000002.SZ" 100 200))
          ("stk_limit", cacheParamsOf "000002.SZ" 100 200) 9
          [⟨"000002.SZ", 150, 5⟩, ⟨"000002.SZ", 200, 6⟩],
         0 + 1, 0, 0, 9,
         [] ++ [Event.fetch "stk_limit"
             ⟨some "000002.SZ", none, some 201, some 260⟩,
           Event.unlink "stk_limit" (cacheParamsOf "000002.SZ" 100 200),
           Event.save "stk_limit" (cacheParamsOf "000002.SZ" 100 200)]⟩) :=
  ⟨rfl, by decide, by decide, by decide, rfl,
   smart_empty_late_gap_promotes_same_window (fun _ _ => .ok []) {}
     "stk_limit" "000002.SZ" 150 260 100 200
     ⟨some "000002.SZ", none, some 150, some 260⟩
     ⟨[(("stk_limit", cacheParamsOf "000002.SZ" 100 200), 7,
        [⟨"000002.SZ", 150, 5⟩, ⟨"000002.SZ", 200, 6⟩])], 0, 0, 0, 9, []⟩
     7 [⟨"000002.SZ", 150, 5⟩, ⟨"000002.SZ", 200, 6⟩]
     rfl (by decide) (by decide) (by decide) rfl⟩
